import Mathlib

/-!
Shallow embedding of the PlantBot2 production firmware
(`src/firmware/PlatformIO/plantbot_production/src/main.cpp` together with
the configuration macros of `include/plantbot2_pins.h`): the battery
voltage history ring buffer, the charging-trend estimator `isCharging`,
the dynamic sleep policy `calculateDynamicSleepTime`, the upload retry
pipeline `uploadData`, and the per-boot orchestration performed by
`setup()`.

Modelling conventions: C++ `float`/`double` values are modelled as exact
rationals (all comparisons of interest are threshold comparisons that are
insensitive to rounding at this granularity); machine integers are `ℤ` or
`ℕ` (every integer involved is tiny, far from any wrap-around).  C++ `%`
on `int` truncates toward zero, so it is rendered as `Int.tmod`.  The
`RTC_DATA_ATTR` array `batteryHistory` is modelled as a total function
`ℤ → ℚ` whose slots `0..9` are the array cells (this keeps every index
computation of the source representable, including ones that step outside
the array bounds).
-/

namespace PlantBot

/-! ### Configuration constants (`plantbot2_pins.h`) -/

def BATTERY_MAX_VOLTAGE : ℚ := 4.2
def BATTERY_LOW_VOLTAGE : ℚ := 3.7
def BATTERY_CRITICAL_VOLTAGE : ℚ := 3.7
def BATTERY_UVLO_VOLTAGE : ℚ := 3.6
def CHARGING_DETECT_VOLTAGE : ℚ := 4.0
def BATTERY_TREND_SAMPLES : ℤ := 10
def CHARGING_LIGHT_THRESHOLD : ℤ := 2000
def SLEEP_DURATION_MINUTES : ℕ := 120
def CRITICAL_BATTERY_SLEEP_HOURS : ℕ := 24
def UVLO_SLEEP_HOURS : ℕ := 48
def MIN_SLEEP_MINUTES : ℕ := 120
def MAX_SLEEP_MINUTES : ℕ := 360
def NORMAL_SLEEP_MINUTES : ℕ := 120
def CRITICAL_SLEEP_MINUTES : ℕ := 1440
def UVLO_SLEEP_MINUTES : ℕ := 2880
def MAX_RETRIES : ℕ := 2

/-! ### Sleep interval policy (`calculateDynamicSleepTime`, main.cpp 661-720) -/

/-- `calculateDynamicSleepTime(float batteryVoltage, int lightLevel)`
(main.cpp 661-720).  The source calls the global-state function
`isCharging()`; here its result is passed in as the `charging` argument.
Returns the sleep duration in minutes (`uint32_t` in the source; the
float-to-`uint32_t` assignment in the interpolation branch truncates,
rendered as `Int.floor` since the value there is nonnegative). -/
def calculateDynamicSleepTime (batteryVoltage : ℚ) (lightLevel : ℤ)
    (charging : Bool) : ℕ :=
  if batteryVoltage ≤ BATTERY_UVLO_VOLTAGE then
    UVLO_SLEEP_MINUTES
  else if batteryVoltage ≤ BATTERY_CRITICAL_VOLTAGE then
    CRITICAL_SLEEP_MINUTES
  else
    let highLight : Bool := decide (lightLevel > CHARGING_LIGHT_THRESHOLD)
    let voltageIndicatesCharging : Bool :=
      decide (batteryVoltage > CHARGING_DETECT_VOLTAGE)
    let chargingConditions : Bool :=
      charging || (highLight && decide (batteryVoltage > 3.9)) ||
        (voltageIndicatesCharging && decide (batteryVoltage > 4.1))
    let sleepMinutes : ℕ :=
      if chargingConditions then MIN_SLEEP_MINUTES
      else if batteryVoltage < BATTERY_LOW_VOLTAGE then
        let voltageSpan : ℚ := BATTERY_MAX_VOLTAGE - BATTERY_LOW_VOLTAGE
        let frac : ℚ := (batteryVoltage - BATTERY_LOW_VOLTAGE) / voltageSpan
        let fracClamped : ℚ := max 0 (min 1 frac)
        (Int.floor ((MAX_SLEEP_MINUTES : ℚ) -
          ((MAX_SLEEP_MINUTES : ℚ) - (MIN_SLEEP_MINUTES : ℚ)) * fracClamped)).toNat
      else MIN_SLEEP_MINUTES
    max MIN_SLEEP_MINUTES (min MAX_SLEEP_MINUTES sleepMinutes)

/-- The safety/operating tiers of the sleep policy (spec `SleepDecision.tier`). -/
inductive SleepTier
  | Normal
  | LowBattery
  | Critical
  | UVLO
deriving DecidableEq, Repr

/-- The tier of the first-match branch taken by `calculateDynamicSleepTime`:
the branch structure of main.cpp 661-711 with each branch replaced by its
tier label. -/
def sleepTier (batteryVoltage : ℚ) (lightLevel : ℤ) (charging : Bool) :
    SleepTier :=
  if batteryVoltage ≤ BATTERY_UVLO_VOLTAGE then .UVLO
  else if batteryVoltage ≤ BATTERY_CRITICAL_VOLTAGE then .Critical
  else if charging ||
      (decide (lightLevel > CHARGING_LIGHT_THRESHOLD) && decide (batteryVoltage > 3.9)) ||
      (decide (batteryVoltage > CHARGING_DETECT_VOLTAGE) && decide (batteryVoltage > 4.1)) then
    .Normal
  else if batteryVoltage < BATTERY_LOW_VOLTAGE then .LowBattery
  else .Normal

/-- With the shipped constants (`BATTERY_CRITICAL_VOLTAGE` =
`BATTERY_LOW_VOLTAGE` = 3.7) the policy collapses to three outputs. -/
theorem calculateDynamicSleepTime_eq (v : ℚ) (l : ℤ) (c : Bool) :
    calculateDynamicSleepTime v l c =
      if v ≤ 3.6 then 2880 else if v ≤ 3.7 then 1440 else 120 := by
  unfold calculateDynamicSleepTime
  simp only [BATTERY_UVLO_VOLTAGE, BATTERY_CRITICAL_VOLTAGE, BATTERY_LOW_VOLTAGE,
    UVLO_SLEEP_MINUTES, CRITICAL_SLEEP_MINUTES, MIN_SLEEP_MINUTES, MAX_SLEEP_MINUTES]
  split_ifs with h1 h2 h3 h4
  · rfl
  · rfl
  · rfl
  · exact absurd h4 (by push_neg at h2 ⊢; linarith)
  · rfl

/-! ### Battery history ring buffer and trend estimator
(main.cpp 39-41, 604-659) -/

/-- The persistent battery-history state: the `RTC_DATA_ATTR` globals
`batteryHistory` (array of `BATTERY_TREND_SAMPLES` floats, zero
initialised), `batteryHistoryIndex` and `batteryHistoryFull`.  The array
is modelled as a total function `ℤ → ℚ` whose cells `0..9` are the array
slots, so that every index expression of the source stays representable. -/
structure BatteryHistoryState where
  hist : ℤ → ℚ
  idx : ℤ
  full : Bool

/-- `updateBatteryHistory(float voltage)` (main.cpp 604-616): store at
`batteryHistoryIndex`, advance the index modulo `BATTERY_TREND_SAMPLES`,
and set `batteryHistoryFull` when the advanced index is 0. -/
def updateBatteryHistory (s : BatteryHistoryState) (voltage : ℚ) :
    BatteryHistoryState :=
  let hist := fun i => if i = s.idx then voltage else s.hist i
  let idx := (s.idx + 1).tmod BATTERY_TREND_SAMPLES
  { hist := hist, idx := idx, full := s.full || decide (idx = 0) }

/-- The sample count the estimator works with:
`batteryHistoryFull ? BATTERY_TREND_SAMPLES : batteryHistoryIndex`
(main.cpp 623), as a natural number. -/
def numSamples (s : BatteryHistoryState) : ℕ :=
  if s.full then 10 else s.idx.toNat

/-- `currentVoltage` of `isCharging` (main.cpp 624): the most recently
written slot. -/
def currentVoltageOf (s : BatteryHistoryState) : ℚ :=
  s.hist ((s.idx - 1 + BATTERY_TREND_SAMPLES).tmod BATTERY_TREND_SAMPLES)

/-- The `recentTrend` accumulation of `isCharging` (main.cpp 627-634):
mean of the last `min 3 (samples-1)` consecutive deltas.  The source loop
runs `i = 1 .. recentSamples`; here `j = i - 1` ranges over
`Finset.range recentSamples`. -/
def recentTrendOf (s : BatteryHistoryState) : ℚ :=
  let samples := numSamples s
  let recentSamples := min 3 (samples - 1)
  (∑ j ∈ Finset.range recentSamples,
      (s.hist ((s.idx - 1 - (j : ℤ) + BATTERY_TREND_SAMPLES).tmod BATTERY_TREND_SAMPLES) -
       s.hist ((s.idx - 2 - (j : ℤ) + BATTERY_TREND_SAMPLES).tmod BATTERY_TREND_SAMPLES))) /
    (recentSamples : ℚ)

/-- The `overallTrend` accumulation of `isCharging` (main.cpp 637-643).
The source loop runs `i = 1 .. samples-1` with indices
`batteryHistoryIndex - 1 - i` and `batteryHistoryIndex - 2 - i`; here
`j = i - 1` ranges over `Finset.range (samples - 1)`. -/
def overallTrendOf (s : BatteryHistoryState) : ℚ :=
  let samples := numSamples s
  (∑ j ∈ Finset.range (samples - 1),
      (s.hist ((s.idx - 2 - (j : ℤ) + BATTERY_TREND_SAMPLES).tmod BATTERY_TREND_SAMPLES) -
       s.hist ((s.idx - 3 - (j : ℤ) + BATTERY_TREND_SAMPLES).tmod BATTERY_TREND_SAMPLES))) /
    ((samples - 1 : ℕ) : ℚ)

/-- `isCharging()` (main.cpp 618-659). -/
def isCharging (s : BatteryHistoryState) : Bool :=
  if s.full = false ∧ s.idx < 3 then false
  else
    let recentTrend := recentTrendOf s
    let overallTrend := overallTrendOf s
    let currentVoltage := currentVoltageOf s
    let voltageRising := decide (recentTrend > 0.015)
    let stableRise := decide (overallTrend > 0.005)
    let voltageInChargingRange := decide (currentVoltage > 3.8)
    let highVoltage := decide (currentVoltage > 4.1)
    (voltageRising && stableRise && voltageInChargingRange) ||
      (highVoltage && decide (overallTrend > -0.01))

/-- The retrievable contents of the ring buffer, oldest to newest, as
decoded from `write_index`/`is_full` the way the reading code resolves
the cyclic buffer: the newest sample sits at slot `idx - 1 (mod 10)`, the
oldest `numSamples - 1` positions before it. -/
def storedSamples (s : BatteryHistoryState) : List ℚ :=
  (List.range (numSamples s)).map
    (fun (k : ℕ) =>
      s.hist ((s.idx - (numSamples s : ℤ) + (k : ℤ)).emod BATTERY_TREND_SAMPLES))

/-- Consecutive deltas `sample(k) - sample(k-1)` of a list of samples. -/
def consecutiveDeltas : List ℚ → List ℚ
  | a :: b :: rest => (b - a) :: consecutiveDeltas (b :: rest)
  | _ => []

/-- Modelled from the spec: the intended `overall_slope`, the "mean of
all consecutive deltas across the full available history" ordered oldest
to newest.  This is the spec-side definition that `overallTrendOf` (the
code-side accumulation) is compared against. -/
def specOverallSlope (s : BatteryHistoryState) : ℚ :=
  (consecutiveDeltas (storedSamples s)).sum / (((storedSamples s).length - 1 : ℕ) : ℚ)

/-! ### Telemetry payload and upload pipeline (main.cpp 435-505) -/

/-- `SensorData` (main.cpp 49-58). -/
structure SensorData where
  temperature : ℚ
  humidity : ℚ
  batteryVoltage : ℚ
  lightLevel : ℤ
  moistureLevel : ℤ
  moisturePercent : ℚ
  timestamp : ℕ
  lowBattery : Bool

/-- JSON values as used by the payload construction of `uploadData`. -/
inductive JsonVal
  | str (s : String)
  | num (q : ℚ)
  | int (n : ℤ)
  | nat (n : ℕ)
  | bool (b : Bool)
deriving DecidableEq, Repr

/-- The JSON payload built by `uploadData` (main.cpp 439-454), in source
order: the exact keys assigned to `doc`, paired with the values taken
from the sensor data, the boot counter, the radio (`WiFi.RSSI()`,
assigned to the key "rssi") and the `isCharging()` result. -/
def uploadPayload (deviceId : String) (timestamp : ℕ) (data : SensorData)
    (bootCount : ℕ) (rssi : ℤ) (sleepMinutes : ℕ) (charging : Bool) :
    List (String × JsonVal) :=
  [("device_id", .str deviceId),
   ("timestamp", .nat timestamp),
   ("temperature", .num data.temperature),
   ("humidity", .num data.humidity),
   ("battery_voltage", .num data.batteryVoltage),
   ("light_level", .int data.lightLevel),
   ("moisture_level", .int data.moistureLevel),
   ("moisture_percent", .num data.moisturePercent),
   ("boot_count", .nat bootCount),
   ("rssi", .int rssi),
   ("low_battery", .bool data.lowBattery),
   ("sleep_minutes", .nat sleepMinutes),
   ("charging", .bool charging)]

/-- Observable events of one run of the retry loop of `uploadData`: an
HTTP POST of the (loop-invariant) payload on a given attempt number, or
the deliberate wake-up delay between the first and the second attempt
(`CLOUD_WAKEUP_DELAY_MS` in the HTTPS build, 2000 ms otherwise). -/
inductive UploadEvent
  | post (attempt : ℕ) (payload : List (String × JsonVal))
  | coldStartDelay
deriving DecidableEq, Repr

/-- The retry loop of `uploadData` (main.cpp 462-504): attempts run from
`attempt` while `attempt ≤ maxRetries` (`fuel` counts the remaining loop
iterations); a 200 response returns `true` at once; otherwise, after the
first attempt with a retry remaining, the cold-start delay is performed.
Returns the result together with the event trace. -/
def uploadLoop (transport : ℕ → ℤ) (payload : List (String × JsonVal))
    (maxRetries : ℕ) : ℕ → ℕ → Bool × List UploadEvent
  | _, 0 => (false, [])
  | attempt, fuel + 1 =>
    if transport attempt = 200 then
      (true, [.post attempt payload])
    else
      let rest := uploadLoop transport payload maxRetries (attempt + 1) fuel
      if attempt = 1 ∧ attempt < maxRetries then
        (rest.1, .post attempt payload :: .coldStartDelay :: rest.2)
      else
        (rest.1, .post attempt payload :: rest.2)

/-- `uploadData` (main.cpp 435-505): build the payload once, then run the
retry loop for attempts `1 .. MAX_RETRIES`.  `transport n` is the HTTP
status code the POST of attempt `n` obtains. -/
def uploadData (transport : ℕ → ℤ) (payload : List (String × JsonVal)) :
    Bool × List UploadEvent :=
  uploadLoop transport payload MAX_RETRIES 1 MAX_RETRIES

/-- Number of delivery attempts actually made in an upload trace. -/
def attemptsMade (events : List UploadEvent) : ℕ :=
  events.countP (fun e => match e with | .post _ _ => true | .coldStartDelay => false)

/-! ### Cycle orchestrator (`setup()`, main.cpp 78-179) -/

/-- The persistent `RTC_DATA_ATTR` state of one cycle (main.cpp 36-42):
boot counter, consecutive-upload-failure counter `failedUploads`, the
battery history and the last chosen sleep duration. -/
structure CycleState where
  bootCount : ℕ
  failedUploads : ℕ
  batt : BatteryHistoryState
  lastSleepDuration : ℕ

/-- The external inputs of one run of `setup()`: the sensor outcome
(`readSensors`), the network attach outcome (`connectWiFi`), the HTTP
transport, and the identifiers the payload reads from the radio. -/
structure CycleInput where
  sensorOK : Bool
  data : SensorData
  wifiConnects : Bool
  transport : ℕ → ℤ
  deviceId : String
  now : ℕ
  rssi : ℤ

/-- What one run of `setup()` did: the updated persistent state, whether
`connectWiFi()` was ever called, the upload event trace, the upload
outcome, and the duration (minutes) passed to `enterDeepSleep`. -/
structure CycleResult where
  state : CycleState
  wifiAttempted : Bool
  uploadEvents : List UploadEvent
  uploadSucceeded : Bool
  sleepMinutes : ℕ

/-- `setup()` (main.cpp 78-179) as a function from the restored state
and the external inputs of the cycle to its outcome.  Mirrors the
source order: increment `bootCount`; abort to a default-duration sleep
on sensor failure; append the voltage sample; compute the dynamic sleep
time (recording it in `lastSleepDuration`); take the UVLO early sleep
(48 h) on `v ≤ BATTERY_UVLO_VOLTAGE`; take the critical early sleep
(24 h) on `v < BATTERY_CRITICAL_VOLTAGE` (strict, main.cpp 123); repeat
the (unreachable) UVLO guard of main.cpp 140; otherwise attach, upload
with retries, and update `failedUploads`. -/
def runCycle (st : CycleState) (inp : CycleInput) : CycleResult :=
  let bootCount := st.bootCount + 1
  if inp.sensorOK = false then
    { state := { st with bootCount := bootCount },
      wifiAttempted := false, uploadEvents := [], uploadSucceeded := false,
      sleepMinutes := SLEEP_DURATION_MINUTES }
  else
    let batt := updateBatteryHistory st.batt inp.data.batteryVoltage
    let sleepMinutes :=
      calculateDynamicSleepTime inp.data.batteryVoltage inp.data.lightLevel
        (isCharging batt)
    let st := { st with
      bootCount := bootCount
      batt := batt
      lastSleepDuration := sleepMinutes }
    if inp.data.batteryVoltage ≤ BATTERY_UVLO_VOLTAGE then
      { state := st, wifiAttempted := false, uploadEvents := [],
        uploadSucceeded := false, sleepMinutes := UVLO_SLEEP_HOURS * 60 }
    else if inp.data.batteryVoltage < BATTERY_CRITICAL_VOLTAGE then
      { state := st, wifiAttempted := false, uploadEvents := [],
        uploadSucceeded := false,
        sleepMinutes := CRITICAL_BATTERY_SLEEP_HOURS * 60 }
    else if inp.data.batteryVoltage ≤ BATTERY_UVLO_VOLTAGE then
      { state := st, wifiAttempted := false, uploadEvents := [],
        uploadSucceeded := false, sleepMinutes := UVLO_SLEEP_HOURS * 60 }
    else if inp.wifiConnects then
      let payload := uploadPayload inp.deviceId inp.now inp.data bootCount
        inp.rssi sleepMinutes (isCharging batt)
      let outcome := uploadData inp.transport payload
      { state := { st with failedUploads := if outcome.1 then 0 else st.failedUploads + 1 },
        wifiAttempted := true, uploadEvents := outcome.2,
        uploadSucceeded := outcome.1, sleepMinutes := sleepMinutes }
    else
      { state := { st with failedUploads := st.failedUploads + 1 },
        wifiAttempted := true, uploadEvents := [], uploadSucceeded := false,
        sleepMinutes := sleepMinutes }

/-! ### Concrete fixtures used by counterexamples and witnesses -/

/-- A battery history holding three samples 3.0 V, 3.1 V, 3.2 V
(appended in that order into slots 0..2; index 3, not yet full; the
remaining slots carry the zero initialisation of the `RTC_DATA_ATTR`
array). -/
def threeSampleHistory : BatteryHistoryState :=
  { hist := fun i => if i = 0 then 3 else if i = 1 then 3.1 else if i = 2 then 3.2 else 0
    idx := 3
    full := false }

/-- `threeSampleHistory` with the never-written slot 9 holding 1 instead
of 0 (all stored samples unchanged). -/
def threeSampleHistorySlot9 : BatteryHistoryState :=
  { threeSampleHistory with
    hist := fun i => if i = 9 then 1 else threeSampleHistory.hist i }

/-! ### C1 — sleep duration bounds -/

/-- C1, counterexample: the claim says the result of
`calculateDynamicSleepTime` lies in `[MIN_SLEEP, MAX_SLEEP] = [120, 360]`
in every branch including the UVLO and Critical tiers; at
`batteryVoltage = 3.0` (UVLO tier) the function returns 2880, which is
not ≤ 360. -/
theorem C1_counterexample :
    calculateDynamicSleepTime 3 0 false = 2880 ∧
    ¬(calculateDynamicSleepTime 3 0 false ≤ MAX_SLEEP_MINUTES) := by
  rw [calculateDynamicSleepTime_eq]
  norm_num [MAX_SLEEP_MINUTES]

/-- C1, amended: for every battery voltage and light level, the result
lies in `[MIN_SLEEP, MAX_SLEEP]` in every branch that reaches the final
clamp, i.e. whenever the voltage is above the Critical threshold; the
UVLO and Critical branches return early with their fixed sleeps 2880
and 1440 minutes, bypassing the clamp. -/
theorem C1_sleep_bounds (v : ℚ) (l : ℤ) (c : Bool) :
    (BATTERY_CRITICAL_VOLTAGE < v →
      MIN_SLEEP_MINUTES ≤ calculateDynamicSleepTime v l c ∧
        calculateDynamicSleepTime v l c ≤ MAX_SLEEP_MINUTES) ∧
    (v ≤ BATTERY_UVLO_VOLTAGE →
      calculateDynamicSleepTime v l c = UVLO_SLEEP_MINUTES) ∧
    (BATTERY_UVLO_VOLTAGE < v → v ≤ BATTERY_CRITICAL_VOLTAGE →
      calculateDynamicSleepTime v l c = CRITICAL_SLEEP_MINUTES) := by
  rw [calculateDynamicSleepTime_eq]
  simp only [BATTERY_CRITICAL_VOLTAGE, BATTERY_UVLO_VOLTAGE, MIN_SLEEP_MINUTES,
    MAX_SLEEP_MINUTES, UVLO_SLEEP_MINUTES, CRITICAL_SLEEP_MINUTES]
  refine ⟨fun hv => ?_, fun hv => ?_, fun hv1 hv2 => ?_⟩
  · rw [if_neg (by linarith), if_neg (by linarith)]
    norm_num
  · rw [if_pos hv]
  · rw [if_neg (by linarith), if_pos hv2]

/-- Witness for C1_sleep_bounds at voltages 4.0, 3.0 and 3.65. -/
theorem C1_sleep_bounds_witness :
    (MIN_SLEEP_MINUTES ≤ calculateDynamicSleepTime 4 0 false ∧
      calculateDynamicSleepTime 4 0 false ≤ MAX_SLEEP_MINUTES) ∧
    calculateDynamicSleepTime 3 500 true = UVLO_SLEEP_MINUTES ∧
    calculateDynamicSleepTime 3.65 0 false = CRITICAL_SLEEP_MINUTES :=
  ⟨(C1_sleep_bounds 4 0 false).1 (by norm_num [BATTERY_CRITICAL_VOLTAGE]),
   (C1_sleep_bounds 3 500 true).2.1 (by norm_num [BATTERY_UVLO_VOLTAGE]),
   (C1_sleep_bounds 3.65 0 false).2.2 (by norm_num [BATTERY_UVLO_VOLTAGE])
     (by norm_num [BATTERY_CRITICAL_VOLTAGE])⟩

/-! ### C10 — with the shipped constants the policy has three outputs -/

/-- C10: with `BATTERY_CRITICAL_VOLTAGE = BATTERY_LOW_VOLTAGE = 3.7` the
linear-interpolation (LowBattery) branch is unreachable: for every input
the returned duration is 120, 1440 or 2880 minutes, and the taken branch
is never the LowBattery tier. -/
theorem C10_policy_three_values (v : ℚ) (l : ℤ) (c : Bool) :
    (calculateDynamicSleepTime v l c = MIN_SLEEP_MINUTES ∨
     calculateDynamicSleepTime v l c = CRITICAL_SLEEP_MINUTES ∨
     calculateDynamicSleepTime v l c = UVLO_SLEEP_MINUTES) ∧
    sleepTier v l c ≠ SleepTier.LowBattery := by
  constructor
  · rw [calculateDynamicSleepTime_eq]
    simp only [MIN_SLEEP_MINUTES, CRITICAL_SLEEP_MINUTES, UVLO_SLEEP_MINUTES]
    split_ifs <;> simp
  · unfold sleepTier
    simp only [BATTERY_UVLO_VOLTAGE, BATTERY_CRITICAL_VOLTAGE, BATTERY_LOW_VOLTAGE]
    split_ifs with h1 h2 h3 h4 <;> simp_all
    linarith

/-! ### C3 — the overall-trend accumulation is off by one -/

/-- C3: on the three-sample history 3.0, 3.1, 3.2 V the source
`overallTrend` accumulation (indices `batteryHistoryIndex - 1 - i` and
`batteryHistoryIndex - 2 - i` for `i = 1 .. samples-1`) yields 31/20 =
1.55, not the mean 1/10 = 0.1 of the consecutive deltas of the stored
history; moreover its value depends on the never-written slot 9 of the
array, so the loop reads a slot outside the stored samples. -/
theorem C3_overall_trend_off_by_one :
    overallTrendOf threeSampleHistory = 31 / 20 ∧
    specOverallSlope threeSampleHistory = 1 / 10 ∧
    overallTrendOf threeSampleHistory ≠ specOverallSlope threeSampleHistory ∧
    overallTrendOf threeSampleHistorySlot9 ≠ overallTrendOf threeSampleHistory := by
  refine ⟨?_, ?_, ?_, ?_⟩
  · simp +decide [overallTrendOf, numSamples, threeSampleHistory,
      BATTERY_TREND_SAMPLES, Finset.sum_range_succ]
    norm_num
  · simp +decide [specOverallSlope, storedSamples, numSamples, threeSampleHistory,
      BATTERY_TREND_SAMPLES, consecutiveDeltas, List.range_succ]
    norm_num
  · simp +decide [overallTrendOf, specOverallSlope, storedSamples, numSamples,
      threeSampleHistory, BATTERY_TREND_SAMPLES, Finset.sum_range_succ,
      consecutiveDeltas, List.range_succ]
    norm_num
  · simp +decide [overallTrendOf, numSamples, threeSampleHistory,
      threeSampleHistorySlot9, BATTERY_TREND_SAMPLES, Finset.sum_range_succ]
    norm_num

/-! ### C5 — ring buffer round trip -/

/-- C5: appending `N+1 = 11` samples to the empty history leaves exactly
the last 10 retrievable, oldest-appended evicted first, with the write
index back at 1 and the full flag set; each append advances the write
index modulo `BATTERY_TREND_SAMPLES` and sets the full flag exactly when
the advanced index wraps to 0 (never clearing it); and after any append
the number of stored samples is at most 10. -/
theorem C5_ring_buffer_round_trip (h0 : ℤ → ℚ)
    (a b c d e f g h i j k : ℚ) :
    storedSamples
        (List.foldl updateBatteryHistory ⟨h0, 0, false⟩
          [a, b, c, d, e, f, g, h, i, j, k]) =
      [b, c, d, e, f, g, h, i, j, k] ∧
    (List.foldl updateBatteryHistory ⟨h0, 0, false⟩
        [a, b, c, d, e, f, g, h, i, j, k]).idx = 1 ∧
    (List.foldl updateBatteryHistory ⟨h0, 0, false⟩
        [a, b, c, d, e, f, g, h, i, j, k]).full = true ∧
    (∀ (s : BatteryHistoryState) (x : ℚ),
      (updateBatteryHistory s x).idx = (s.idx + 1).tmod BATTERY_TREND_SAMPLES) ∧
    (∀ (s : BatteryHistoryState) (x : ℚ),
      (updateBatteryHistory s x).full =
        (s.full || decide ((s.idx + 1).tmod BATTERY_TREND_SAMPLES = 0))) ∧
    (∀ (s : BatteryHistoryState) (x : ℚ),
      (storedSamples (updateBatteryHistory s x)).length ≤ 10) := by
  refine ⟨?_, ?_, ?_, fun s x => rfl, fun s x => rfl, fun s x => ?_⟩
  · simp +decide [updateBatteryHistory, storedSamples, numSamples,
      BATTERY_TREND_SAMPLES, List.range_succ]
  · simp +decide [updateBatteryHistory, BATTERY_TREND_SAMPLES]
  · simp +decide [updateBatteryHistory, BATTERY_TREND_SAMPLES]
  · have hlt : (s.idx + 1).tmod 10 < 10 :=
      Int.tmod_lt_of_pos (s.idx + 1) (by norm_num)
    simp only [storedSamples, List.length_map, List.length_range,
      updateBatteryHistory, numSamples, BATTERY_TREND_SAMPLES]
    split_ifs <;> omega

/-! ### C6 — fewer than three samples means not charging -/

/-- C6: with fewer than 3 stored samples `isCharging` returns `false`. -/
theorem C6_insufficient_history (s : BatteryHistoryState)
    (hlen : (storedSamples s).length < 3) : isCharging s = false := by
  simp only [storedSamples, List.length_map, List.length_range, numSamples] at hlen
  by_cases hfull : s.full
  · simp [hfull] at hlen
  · rw [if_neg hfull] at hlen
    unfold isCharging
    rw [if_pos ⟨by simpa using hfull, by omega⟩]

/-- Witness for C6_insufficient_history on a two-sample history. -/
theorem C6_insufficient_history_witness :
    isCharging ⟨fun _ => 4.2, 2, false⟩ = false :=
  C6_insufficient_history ⟨fun _ => 4.2, 2, false⟩
    (by simp [storedSamples, numSamples])

/-! ### C7 — upload retry protocol -/

/-- C7: with `MAX_RETRIES = 2`, a transport failing attempt 1 and
succeeding attempt 2 yields success with exactly two POSTs and the
cold-start delay exactly once, after attempt 1 and before attempt 2; a
success on attempt 1 ends the loop immediately with a single POST; and
when both attempts fail the pipeline returns failure after the same
trace. -/
theorem C7_upload_retry (t : ℕ → ℤ) (p : List (String × JsonVal)) :
    (t 1 ≠ 200 → t 2 = 200 →
      uploadData t p =
        (true, [.post 1 p, .coldStartDelay, .post 2 p]) ∧
      attemptsMade (uploadData t p).2 = 2) ∧
    (t 1 = 200 → uploadData t p = (true, [.post 1 p])) ∧
    (t 1 ≠ 200 → t 2 ≠ 200 →
      uploadData t p =
        (false, [.post 1 p, .coldStartDelay, .post 2 p])) := by
  refine ⟨fun h1 h2 => ?_, fun h1 => ?_, fun h1 h2 => ?_⟩
  · simp [uploadData, uploadLoop, MAX_RETRIES, attemptsMade, h1, h2]
  · simp [uploadData, uploadLoop, MAX_RETRIES, h1]
  · simp [uploadData, uploadLoop, MAX_RETRIES, h1, h2]

/-- Witness for C7_upload_retry: a transport failing only attempt 1, an
always-succeeding transport and an always-failing transport. -/
theorem C7_upload_retry_witness :
    (uploadData (fun n => if n = 1 then 500 else 200) [] =
        (true, [.post 1 [], .coldStartDelay, .post 2 []]) ∧
      attemptsMade (uploadData (fun n => if n = 1 then 500 else 200) []).2 = 2) ∧
    uploadData (fun _ => 200) [] = (true, [.post 1 []]) ∧
    uploadData (fun _ => 500) [] =
      (false, [.post 1 [], .coldStartDelay, .post 2 []]) :=
  ⟨(C7_upload_retry (fun n => if n = 1 then 500 else 200) []).1
      (by norm_num) (by norm_num),
   (C7_upload_retry (fun _ => 200) []).2.1 rfl,
   (C7_upload_retry (fun _ => 500) []).2.2 (by norm_num) (by norm_num)⟩

/-! ### C4 — UVLO suppresses all radio activity -/

/-- C4: whenever the measured battery voltage is at or below
`BATTERY_UVLO_VOLTAGE`, the cycle never calls `connectWiFi` and makes no
upload attempt, the sleep entered is the fixed 48-hour UVLO sleep, the
recorded dynamic sleep decision is `UVLO_SLEEP_MINUTES`, and the policy
tier is `UVLO` for every light level and charging classification. -/
theorem C4_uvlo_skips_radio (st : CycleState) (inp : CycleInput)
    (hs : inp.sensorOK = true)
    (hv : inp.data.batteryVoltage ≤ BATTERY_UVLO_VOLTAGE) :
    (runCycle st inp).wifiAttempted = false ∧
    (runCycle st inp).uploadEvents = [] ∧
    (runCycle st inp).sleepMinutes = UVLO_SLEEP_HOURS * 60 ∧
    (runCycle st inp).state.lastSleepDuration = UVLO_SLEEP_MINUTES ∧
    (∀ (l : ℤ) (c : Bool),
      sleepTier inp.data.batteryVoltage l c = SleepTier.UVLO) := by
  simp only [BATTERY_UVLO_VOLTAGE] at hv
  refine ⟨?_, ?_, ?_, ?_, fun l c => ?_⟩ <;>
    simp [runCycle, hs, hv, sleepTier, BATTERY_UVLO_VOLTAGE,
      calculateDynamicSleepTime_eq, UVLO_SLEEP_MINUTES]

/-- Witness for C4_uvlo_skips_radio at 3.5 V. -/
theorem C4_uvlo_skips_radio_witness :
    (runCycle
        ⟨7, 2, ⟨fun _ => 0, 0, false⟩, 120⟩
        ⟨true, ⟨21.5, 50, 3.5, 500, 1500, 60, 1000, false⟩, true,
          fun _ => 200, "plantbot", 2000, -50⟩).wifiAttempted = false ∧
    (runCycle
        ⟨7, 2, ⟨fun _ => 0, 0, false⟩, 120⟩
        ⟨true, ⟨21.5, 50, 3.5, 500, 1500, 60, 1000, false⟩, true,
          fun _ => 200, "plantbot", 2000, -50⟩).uploadEvents = [] :=
  ⟨(C4_uvlo_skips_radio _ _ rfl (by norm_num [BATTERY_UVLO_VOLTAGE])).1,
   (C4_uvlo_skips_radio _ _ rfl (by norm_num [BATTERY_UVLO_VOLTAGE])).2.1⟩

/-! ### C2 — the Critical tier boundary -/

/-- C2, counterexample: at `battery_voltage` exactly equal to
`BATTERY_CRITICAL_VOLTAGE = 3.7` the policy does choose the Critical
tier with the fixed 1440-minute sleep, but the guard of the orchestrator
(main.cpp 123) is strict (`<`), so the cycle still calls `connectWiFi`
and performs an upload attempt — refuting the claim that the upload is
skipped at the boundary. -/
theorem C2_counterexample :
    sleepTier 3.7 500 false = SleepTier.Critical ∧
    calculateDynamicSleepTime 3.7 500 false = CRITICAL_SLEEP_MINUTES ∧
    (runCycle ⟨7, 2, ⟨fun _ => 0, 0, false⟩, 120⟩
        ⟨true, ⟨21.5, 50, 3.7, 500, 1500, 60, 1000, false⟩, true,
          fun _ => 200, "plantbot", 2000, -50⟩).wifiAttempted = true ∧
    (runCycle ⟨7, 2, ⟨fun _ => 0, 0, false⟩, 120⟩
        ⟨true, ⟨21.5, 50, 3.7, 500, 1500, 60, 1000, false⟩, true,
          fun _ => 200, "plantbot", 2000, -50⟩).uploadEvents ≠ [] := by
  refine ⟨?_, ?_, ?_, ?_⟩
  · simp [sleepTier, BATTERY_UVLO_VOLTAGE, BATTERY_CRITICAL_VOLTAGE]
    norm_num
  · rw [calculateDynamicSleepTime_eq]
    norm_num [CRITICAL_SLEEP_MINUTES]
  · simp [runCycle, BATTERY_UVLO_VOLTAGE, BATTERY_CRITICAL_VOLTAGE]
    norm_num
  · simp [runCycle, BATTERY_UVLO_VOLTAGE, BATTERY_CRITICAL_VOLTAGE,
      uploadData, uploadLoop, MAX_RETRIES]
    norm_num

/-- C2, amended: for `UVLO < battery_voltage ≤ CRITICAL_VOLTAGE` the
policy tier is `Critical` (inclusive boundary) with the fixed 1440-minute
sleep, and the cycle sleeps 1440 minutes; but the orchestrator skips the
network attach and upload only for voltages strictly below
`CRITICAL_VOLTAGE` — at the boundary value itself the upload proceeds. -/
theorem C2_critical_boundary (st : CycleState) (inp : CycleInput)
    (hs : inp.sensorOK = true)
    (h1 : BATTERY_UVLO_VOLTAGE < inp.data.batteryVoltage)
    (h2 : inp.data.batteryVoltage ≤ BATTERY_CRITICAL_VOLTAGE) :
    (∀ (l : ℤ) (c : Bool),
      sleepTier inp.data.batteryVoltage l c = SleepTier.Critical) ∧
    (runCycle st inp).state.lastSleepDuration = CRITICAL_SLEEP_MINUTES ∧
    (runCycle st inp).sleepMinutes = CRITICAL_SLEEP_MINUTES ∧
    ((runCycle st inp).wifiAttempted = false ↔
      inp.data.batteryVoltage < BATTERY_CRITICAL_VOLTAGE) := by
  simp only [BATTERY_UVLO_VOLTAGE] at h1
  simp only [BATTERY_CRITICAL_VOLTAGE] at h2 ⊢
  have hnu : ¬(inp.data.batteryVoltage ≤ 3.6) := by linarith
  rcases lt_or_eq_of_le h2 with hlt | heq
  · refine ⟨fun l c => ?_, ?_, ?_, ?_⟩ <;>
      simp [sleepTier, runCycle, hs, hnu, hlt, le_of_lt hlt,
        BATTERY_UVLO_VOLTAGE, BATTERY_CRITICAL_VOLTAGE,
        CRITICAL_BATTERY_SLEEP_HOURS, CRITICAL_SLEEP_MINUTES,
        calculateDynamicSleepTime_eq]
  · have hnl : ¬(inp.data.batteryVoltage < 3.7) := by
      rw [heq]
      exact lt_irrefl _
    refine ⟨fun l c => ?_, ?_, ?_, ?_⟩ <;>
      by_cases hw : inp.wifiConnects <;>
        simp [sleepTier, runCycle, hs, hnu, hnl, h2, hw,
          BATTERY_UVLO_VOLTAGE, BATTERY_CRITICAL_VOLTAGE,
          CRITICAL_SLEEP_MINUTES, calculateDynamicSleepTime_eq]

/-- Witness for C2_critical_boundary at 3.65 V. -/
theorem C2_critical_boundary_witness :
    (runCycle ⟨7, 2, ⟨fun _ => 0, 0, false⟩, 120⟩
        ⟨true, ⟨21.5, 50, 3.65, 500, 1500, 60, 1000, false⟩, true,
          fun _ => 200, "plantbot", 2000, -50⟩).sleepMinutes =
      CRITICAL_SLEEP_MINUTES ∧
    (runCycle ⟨7, 2, ⟨fun _ => 0, 0, false⟩, 120⟩
        ⟨true, ⟨21.5, 50, 3.65, 500, 1500, 60, 1000, false⟩, true,
          fun _ => 200, "plantbot", 2000, -50⟩).wifiAttempted = false :=
  ⟨(C2_critical_boundary _ _ rfl
      (by norm_num [BATTERY_UVLO_VOLTAGE])
      (by norm_num [BATTERY_CRITICAL_VOLTAGE])).2.2.1,
   (C2_critical_boundary _ _ rfl
      (by norm_num [BATTERY_UVLO_VOLTAGE])
      (by norm_num [BATTERY_CRITICAL_VOLTAGE])).2.2.2.mpr
      (by norm_num [BATTERY_CRITICAL_VOLTAGE])⟩

/-! ### C9 — the consecutive-upload-failure counter -/

/-- C9: `failedUploads` becomes 0 on any cycle whose upload succeeds, is
incremented by exactly 1 on a cycle whose upload attempts all fail, is
incremented by exactly 1 (with zero upload attempts) on a cycle where the
network attach fails, and is left unchanged by every cycle that never
reaches the radio. -/
theorem C9_failure_counter (st : CycleState) (inp : CycleInput) :
    ((runCycle st inp).uploadSucceeded = true →
      (runCycle st inp).state.failedUploads = 0) ∧
    ((runCycle st inp).wifiAttempted = true → inp.wifiConnects = true →
      (runCycle st inp).uploadSucceeded = false →
      (runCycle st inp).state.failedUploads = st.failedUploads + 1) ∧
    ((runCycle st inp).wifiAttempted = true → inp.wifiConnects = false →
      (runCycle st inp).state.failedUploads = st.failedUploads + 1 ∧
      (runCycle st inp).uploadEvents = []) ∧
    ((runCycle st inp).wifiAttempted = false →
      (runCycle st inp).state.failedUploads = st.failedUploads) := by
  by_cases hsf : inp.sensorOK = false
  · simp [runCycle, hsf]
  · by_cases h36 : inp.data.batteryVoltage ≤ BATTERY_UVLO_VOLTAGE
    · simp [runCycle, hsf, h36]
    · by_cases h37 : inp.data.batteryVoltage < BATTERY_CRITICAL_VOLTAGE
      · simp [runCycle, hsf, h36, h37]
      · by_cases hw : inp.wifiConnects
        · simp [runCycle, hsf, h36, h37, hw]
        · simp [runCycle, hsf, h36, h37, hw]

/-- Witness for C9_failure_counter: a succeeding cycle resets the
counter to 0; an attach-failure cycle increments it from 2 to 3 with an
empty upload trace. -/
theorem C9_failure_counter_witness :
    (runCycle ⟨7, 2, ⟨fun _ => 0, 0, false⟩, 120⟩
        ⟨true, ⟨21.5, 50, 4.0, 500, 1500, 60, 1000, false⟩, true,
          fun _ => 200, "plantbot", 2000, -50⟩).state.failedUploads = 0 ∧
    (runCycle ⟨7, 2, ⟨fun _ => 0, 0, false⟩, 120⟩
        ⟨true, ⟨21.5, 50, 4.0, 500, 1500, 60, 1000, false⟩, false,
          fun _ => 200, "plantbot", 2000, -50⟩).state.failedUploads = 3 ∧
    (runCycle ⟨7, 2, ⟨fun _ => 0, 0, false⟩, 120⟩
        ⟨true, ⟨21.5, 50, 4.0, 500, 1500, 60, 1000, false⟩, false,
          fun _ => 200, "plantbot", 2000, -50⟩).uploadEvents = [] := by
  refine ⟨(C9_failure_counter _ _).1 ?_,
    ((C9_failure_counter _ _).2.2.1 ?_ rfl).1,
    ((C9_failure_counter _ _).2.2.1 ?_ rfl).2⟩
  · simp [runCycle, BATTERY_UVLO_VOLTAGE, BATTERY_CRITICAL_VOLTAGE,
      uploadData, uploadLoop, MAX_RETRIES]
    norm_num
  · simp [runCycle, BATTERY_UVLO_VOLTAGE, BATTERY_CRITICAL_VOLTAGE]
    norm_num
  · simp [runCycle, BATTERY_UVLO_VOLTAGE, BATTERY_CRITICAL_VOLTAGE]
    norm_num

/-! ### C8 — the wire-contract field names -/

/-- Every event of an upload trace is either the cold-start delay or a
POST of the payload the loop was given. -/
theorem uploadLoop_events (t : ℕ → ℤ) (p : List (String × JsonVal))
    (maxR : ℕ) :
    ∀ (fuel attempt : ℕ) (ev : UploadEvent),
      ev ∈ (uploadLoop t p maxR attempt fuel).2 →
      ev = UploadEvent.coldStartDelay ∨
        ∃ n, ev = UploadEvent.post n p := by
  intro fuel
  induction fuel with
  | zero => simp [uploadLoop]
  | succ fuel ih =>
    intro attempt ev hev
    by_cases h200 : t attempt = 200
    · simp [uploadLoop, h200] at hev
      exact Or.inr ⟨attempt, hev⟩
    · by_cases hfirst : attempt = 1 ∧ attempt < maxR
      · obtain ⟨ha1, hlt⟩ := hfirst
        subst ha1
        simp [uploadLoop, h200, hlt] at hev
        rcases hev with h | h | h
        · exact Or.inr ⟨1, h⟩
        · exact Or.inl h
        · exact ih 2 ev h
      · simp [uploadLoop, h200, hfirst] at hev
        rcases hev with h | h
        · exact Or.inr ⟨attempt, h⟩
        · exact ih (attempt + 1) ev h

/-- C8, counterexample: the payload built by `uploadData` has no field
named `signal_strength` (the radio signal field is keyed "rssi",
main.cpp 451). -/
theorem C8_counterexample :
    "signal_strength" ∉
      (uploadPayload "plantbot" 1000 ⟨21.5, 50, 4.0, 500, 1500, 60, 1000, false⟩
          7 (-50) 120 false).map Prod.fst := by
  decide

/-- C8, amended: every upload attempt POSTs one identical payload whose
fields are exactly `device_id`, `timestamp`, `temperature`, `humidity`,
`battery_voltage`, `light_level`, `moisture_level`, `moisture_percent`,
`boot_count`, `rssi` (the signal-strength integer, under the key "rssi"
rather than "signal_strength"), `low_battery`, `sleep_minutes` and
`charging`, in this order, on every attempt. -/
theorem C8_payload_fields (deviceId : String) (timestamp : ℕ)
    (d : SensorData) (bootCount : ℕ) (rssi : ℤ) (sleepMinutes : ℕ)
    (charging : Bool) (t : ℕ → ℤ) :
    (uploadPayload deviceId timestamp d bootCount rssi sleepMinutes
        charging).map Prod.fst =
      ["device_id", "timestamp", "temperature", "humidity",
       "battery_voltage", "light_level", "moisture_level",
       "moisture_percent", "boot_count", "rssi", "low_battery",
       "sleep_minutes", "charging"] ∧
    (∀ ev ∈ (uploadData t (uploadPayload deviceId timestamp d bootCount
        rssi sleepMinutes charging)).2,
      ev = UploadEvent.coldStartDelay ∨
        ∃ n, ev = UploadEvent.post n (uploadPayload deviceId timestamp d
          bootCount rssi sleepMinutes charging)) :=
  ⟨rfl, fun ev hev => uploadLoop_events t _ MAX_RETRIES MAX_RETRIES 1 ev hev⟩

/-- Witness for C8_payload_fields with a succeeding transport: the single
POST of the trace carries the payload. -/
theorem C8_payload_fields_witness :
    (uploadPayload "plantbot" 1000 ⟨21.5, 50, 4.0, 500, 1500, 60, 1000, false⟩
        7 (-50) 120 false).map Prod.fst =
      ["device_id", "timestamp", "temperature", "humidity",
       "battery_voltage", "light_level", "moisture_level",
       "moisture_percent", "boot_count", "rssi", "low_battery",
       "sleep_minutes", "charging"] ∧
    (UploadEvent.post 1 (uploadPayload "plantbot" 1000
        ⟨21.5, 50, 4.0, 500, 1500, 60, 1000, false⟩ 7 (-50) 120 false) =
      UploadEvent.coldStartDelay ∨
      ∃ n, UploadEvent.post 1 (uploadPayload "plantbot" 1000
          ⟨21.5, 50, 4.0, 500, 1500, 60, 1000, false⟩ 7 (-50) 120 false) =
        UploadEvent.post n (uploadPayload "plantbot" 1000
          ⟨21.5, 50, 4.0, 500, 1500, 60, 1000, false⟩ 7 (-50) 120 false)) :=
  ⟨(C8_payload_fields "plantbot" 1000 _ 7 (-50) 120 false (fun _ => 200)).1,
   (C8_payload_fields "plantbot" 1000 _ 7 (-50) 120 false (fun _ => 200)).2
     _ (by simp [uploadData, uploadLoop, MAX_RETRIES])⟩

end PlantBot
